import Mathlib

/-!
Shallow embedding of the tax-evader Telegram bot's points and verification
subsystems: the `User` model methods (`awardPoints`, `incrementMessages`,
`updateStreak`), the `TaxPointsService` calculation pipeline
(`processMessagePoints` and its helpers), the `VerificationService` token
validation (`processVerification`), and the `TaxConfigService` versioned
store (`updateConfig`, `revertToVersion`).

JavaScript numbers are modelled as rationals (`ℚ`); `Date` values as
millisecond timestamps (`ℕ`), with calendar-day truncation modelled as
division by the number of milliseconds per day.
-/

/-- Milliseconds per calendar day. -/
def msPerDay : ℕ := 86400000

/-- Calendar day index of a timestamp (models the
`new Date(getFullYear(), getMonth(), getDate())` truncation). -/
def dayOf (t : ℕ) : ℕ := t / msPerDay

/-- Timestamp of the midnight starting the day of `t`
(models `todayStart` in the source). -/
def dayStart (t : ℕ) : ℕ := dayOf t * msPerDay

/-- JavaScript `Math.round`: round half toward positive infinity. -/
def jsRound (q : ℚ) : ℤ := ⌊q + 1 / 2⌋

/-- One entry of `config.streakMultipliers`. -/
structure StreakTier where
  days : ℚ
  multiplier : ℚ
  deriving DecidableEq, Repr

/-- One entry of `config.milestoneRewards`. -/
structure Milestone where
  points : ℚ
  bonus : ℚ
  deriving DecidableEq, Repr

/-- The `config.nightOwlBonus` record. -/
structure NightOwl where
  startHour : ℚ
  endHour : ℚ
  bonus : ℚ
  deriving DecidableEq, Repr

/-- The fields of `ITaxConfig` used by the points engine (the resolved,
merged configuration handed to `calculateMessagePoints` and friends). -/
structure TaxCfg where
  welcomeBonus : ℚ
  baseMessagePoints : ℚ
  dailyFirstMessageBonus : ℚ
  minMessageLength : ℚ
  qualityMessageLength : ℚ
  qualityMultiplier : ℚ
  replyBonus : ℚ
  streakMultipliers : List StreakTier
  maxStreakMultiplier : ℚ
  cooldownSeconds : ℚ
  maxPointsPerDay : ℚ
  diminishingReturnsThreshold : ℚ
  diminishingReturnsFactor : ℚ
  milestoneRewards : List Milestone
  weekendMultiplier : ℚ
  nightOwlBonus : NightOwl
  enableQualityMultiplier : Bool
  enableDailyBonus : Bool
  enableStreakMultiplier : Bool
  enableTimeMultiplier : Bool
  enableMilestoneRewards : Bool
  deriving DecidableEq, Repr

/-- The hard-coded default configuration (`TaxConfig.getDefaultConfig`),
restricted to the modelled fields. -/
def defaultConfig : TaxCfg where
  welcomeBonus := 500
  baseMessagePoints := 2
  dailyFirstMessageBonus := 50
  minMessageLength := 5
  qualityMessageLength := 30
  qualityMultiplier := 1.5
  replyBonus := 3
  streakMultipliers :=
    [⟨3, 1.2⟩, ⟨7, 1.5⟩, ⟨14, 1.8⟩, ⟨30, 2.0⟩]
  maxStreakMultiplier := 2.5
  cooldownSeconds := 30
  maxPointsPerDay := 500
  diminishingReturnsThreshold := 20
  diminishingReturnsFactor := 0.7
  milestoneRewards :=
    [⟨1000, 100⟩, ⟨5000, 250⟩, ⟨10000, 500⟩, ⟨25000, 1000⟩]
  weekendMultiplier := 1.3
  nightOwlBonus := ⟨22, 6, 1.2⟩
  enableQualityMultiplier := true
  enableDailyBonus := true
  enableStreakMultiplier := true
  enableTimeMultiplier := true
  enableMilestoneRewards := true

/-- One element of `user.groupActivity` (per-group activity record). -/
structure GroupActivity where
  groupId : ℤ
  messagesCount : ℚ
  pointsEarned : ℚ
  lastMessageDate : Option ℕ
  dailyPoints : ℚ
  lastDailyReset : Option ℕ
  deriving DecidableEq, Repr

/-- The `User` document's points-relevant fields. -/
structure UserT where
  userId : ℤ
  isVerified : Bool
  taxPoints : ℚ
  totalPointsEarned : ℚ
  messagesCount : ℚ
  dailyStreak : ℚ
  lastStreakDate : Option ℕ
  lastPointAward : Option ℕ
  lastActivityDate : Option ℕ
  groupActivity : List GroupActivity
  deriving DecidableEq, Repr

/-- A freshly created user document: every counter starts at the schema
default `0`, unverified, with no activity records. -/
def mkUser (userId : ℤ) : UserT where
  userId := userId
  isVerified := false
  taxPoints := 0
  totalPointsEarned := 0
  messagesCount := 0
  dailyStreak := 0
  lastStreakDate := none
  lastPointAward := none
  lastActivityDate := none
  groupActivity := []

/-- Replace the first element satisfying `p` by its image under `f`
(models mutating the object returned by JavaScript `Array.find`). -/
def updateFirst (p : α → Bool) (f : α → α) : List α → List α
  | [] => []
  | x :: xs => if p x then f x :: xs else x :: updateFirst p f xs

/-- `user.groupActivity.find(g => g.groupId === groupId)`. -/
def findGA (l : List GroupActivity) (gid : ℤ) : Option GroupActivity :=
  l.find? (fun g => g.groupId == gid)

/-- `userSchema.methods.awardPoints`: add `points` to both running totals,
stamp the activity/award clocks, and upsert the per-group record. -/
def awardPoints (u : UserT) (points : ℚ) (groupId : Option ℤ) (now : ℕ) :
    UserT :=
  let u1 := { u with
    taxPoints := u.taxPoints + points
    totalPointsEarned := u.totalPointsEarned + points
    lastActivityDate := some now
    lastPointAward := some now }
  match groupId with
  | none => u1
  | some gid =>
    match findGA u1.groupActivity gid with
    | some _ =>
      let ga := updateFirst (fun g => g.groupId == gid)
        (fun g => { g with
          pointsEarned := g.pointsEarned + points,
          lastMessageDate := some now })
        u1.groupActivity
      { u1 with groupActivity := ga }
    | none =>
      { u1 with groupActivity := u1.groupActivity ++
          [{ groupId := gid, messagesCount := 0, pointsEarned := points,
             lastMessageDate := some now, dailyPoints := 0,
             lastDailyReset := none }] }

/-- `userSchema.methods.incrementMessages`. -/
def incrementMessages (u : UserT) (groupId : Option ℤ) (now : ℕ) : UserT :=
  let u1 := { u with messagesCount := u.messagesCount + 1 }
  match groupId with
  | none => u1
  | some gid =>
    match findGA u1.groupActivity gid with
    | some _ =>
      let ga := updateFirst (fun g => g.groupId == gid)
        (fun g => { g with
          messagesCount := g.messagesCount + 1,
          lastMessageDate := some now })
        u1.groupActivity
      { u1 with groupActivity := ga }
    | none =>
      { u1 with groupActivity := u1.groupActivity ++
          [{ groupId := gid, messagesCount := 1, pointsEarned := 0,
             lastMessageDate := some now, dailyPoints := 0,
             lastDailyReset := none }] }

/-- `userSchema.methods.updateStreak`: the calendar-day streak transition.
`daysDiff` is the difference of the two midnights divided by a day, as in
the source. -/
def updateStreak (u : UserT) (now : ℕ) : UserT :=
  let newStreak :=
    match u.lastStreakDate with
    | none => 1
    | some last =>
      let daysDiff : ℤ := (dayOf now : ℤ) - (dayOf last : ℤ)
      if daysDiff = 1 then u.dailyStreak + 1
      else if daysDiff > 1 then 1
      else u.dailyStreak
  { u with dailyStreak := newStreak, lastStreakDate := some now }

/-- `TaxPointsService.getQualityMultiplier`: length below `minMessageLength`
yields multiplier 0, length at least `qualityMessageLength` yields
`qualityMultiplier`, otherwise 1. -/
def getQualityMultiplier (text : String) (cfg : TaxCfg) : ℚ :=
  if (text.length : ℚ) < cfg.minMessageLength then 0
  else if (text.length : ℚ) ≥ cfg.qualityMessageLength then
    cfg.qualityMultiplier
  else 1

/-- The `for … break` loop of `TaxPointsService.getStreakMultiplier`. -/
def streakLoop (streak : ℚ) : List StreakTier → ℚ → ℚ
  | [], m => m
  | t :: ts, m =>
    if streak ≥ t.days then streakLoop streak ts t.multiplier else m

/-- `TaxPointsService.getStreakMultiplier`. -/
def getStreakMultiplier (streak : ℚ) (cfg : TaxCfg) : ℚ :=
  min (streakLoop streak cfg.streakMultipliers 1) cfg.maxStreakMultiplier

/-- `TaxPointsService.getTimeMultiplier`, with the clock reads
(`now.getHours()`, `now.getDay()`) passed explicitly. -/
def getTimeMultiplier (cfg : TaxCfg) (hour : ℚ) (dayOfWeek : ℕ) : ℚ :=
  let isWeekend := dayOfWeek == 0 || dayOfWeek == 6
  let m1 : ℚ := 1
  let m2 := if isWeekend then m1 * cfg.weekendMultiplier else m1
  if hour ≥ cfg.nightOwlBonus.startHour ∨ hour ≤ cfg.nightOwlBonus.endHour
  then m2 * cfg.nightOwlBonus.bonus
  else m2

/-- `TaxPointsService.canAwardPoints`: the cooldown gate. -/
def canAwardPoints (u : UserT) (cfg : TaxCfg) (now : ℕ) : Bool :=
  match u.lastPointAward with
  | none => true
  | some last => (now : ℚ) - (last : ℚ) ≥ cfg.cooldownSeconds * 1000

/-- `TaxPointsService.canAwardDailyPoints`: the daily-cap gate. Returns the
gate verdict together with the (possibly reset) group-activity record the
source mutates in place. -/
def canAwardDailyPoints (g : GroupActivity) (cfg : TaxCfg) (now : ℕ) :
    Bool × GroupActivity :=
  match g.lastDailyReset with
  | none =>
    (true, { g with dailyPoints := 0, lastDailyReset := some now })
  | some r =>
    if r < dayStart now then
      (true, { g with dailyPoints := 0, lastDailyReset := some now })
    else
      (g.dailyPoints < cfg.maxPointsPerDay, g)

/-- `TaxPointsService.isFirstMessageToday`. -/
def isFirstMessageToday (u : UserT) (gid : ℤ) (now : ℕ) : Bool :=
  match findGA u.groupActivity gid with
  | none => true
  | some g =>
    match g.lastMessageDate with
    | none => true
    | some last => last < dayStart now

/-- `TaxPointsService.getHourlyMessageCount`: the capped single-timestamp
estimate. -/
def getHourlyMessageCount (u : UserT) (gid : ℤ) (now : ℕ) : ℚ :=
  match findGA u.groupActivity gid with
  | none => 0
  | some g =>
    match g.lastMessageDate with
    | none => 0
    | some last =>
      if (last : ℚ) > (now : ℚ) - 3600000 then min g.messagesCount 50
      else 0

/-- The `for … return` loop of `TaxPointsService.checkMilestone`. -/
def milestoneLoop (old new : ℚ) : List Milestone → ℚ
  | [] => 0
  | m :: ms =>
    if old < m.points ∧ new ≥ m.points then m.bonus
    else milestoneLoop old new ms

/-- `TaxPointsService.checkMilestone`: bonus of the first milestone entry
strictly above the pre-award total and reached by the post-award total. -/
def checkMilestone (old new : ℚ) (cfg : TaxCfg) : ℚ :=
  milestoneLoop old new cfg.milestoneRewards

/-- `TaxPointsService.calculateMessagePoints`: the points pipeline. Returns
the awarded amount together with the user state after the streak-update
side effect. -/
def calculateMessagePoints (u : UserT) (cfg : TaxCfg) (text : String)
    (isReply : Bool) (gid : ℤ) (now : ℕ) (hour : ℚ) (dayOfWeek : ℕ) :
    ℚ × UserT :=
  let points0 := cfg.baseMessagePoints
  let points1 :=
    if cfg.enableQualityMultiplier then
      points0 * getQualityMultiplier text cfg
    else points0
  let points2 := if isReply then points1 + cfg.replyBonus else points1
  let firstToday := isFirstMessageToday u gid now
  let step3 :=
    if firstToday && cfg.enableDailyBonus then
      (points2 + cfg.dailyFirstMessageBonus, updateStreak u now)
    else (points2, u)
  let points3 := step3.1
  let u3 := step3.2
  let points4 :=
    if cfg.enableStreakMultiplier then
      points3 * getStreakMultiplier u3.dailyStreak cfg
    else points3
  let points5 :=
    if cfg.enableTimeMultiplier then
      points4 * getTimeMultiplier cfg hour dayOfWeek
    else points4
  let hourly := getHourlyMessageCount u3 gid now
  let points6 :=
    if hourly > cfg.diminishingReturnsThreshold then
      points5 * cfg.diminishingReturnsFactor
    else points5
  (((max 1 (jsRound points6) : ℤ) : ℚ), u3)

/-- The daily-cap check of `processMessagePoints`: passes vacuously when the
user has no activity record for the group. -/
def dailyGateOk (u : UserT) (cfg : TaxCfg) (gid : ℤ) (now : ℕ) : Bool :=
  match findGA u.groupActivity gid with
  | none => true
  | some g => (canAwardDailyPoints g cfg now).1

/-- The in-place mutation `canAwardDailyPoints` performs on the found
group-activity record, threaded into the user state. -/
def applyDailyReset (u : UserT) (cfg : TaxCfg) (gid : ℤ) (now : ℕ) :
    UserT :=
  match findGA u.groupActivity gid with
  | none => u
  | some g =>
    let ga := updateFirst (fun x => x.groupId == gid)
      (fun _ => (canAwardDailyPoints g cfg now).2) u.groupActivity
    { u with groupActivity := ga }

/-- The post-gate tail of `processMessagePoints`: calculate, award,
increment message counters, then apply a milestone top-up when enabled. -/
def processAward (u : UserT) (cfg : TaxCfg) (text : String)
    (isReply : Bool) (gid : ℤ) (now : ℕ) (hour : ℚ) (dayOfWeek : ℕ) :
    ℚ × UserT :=
  let r := calculateMessagePoints u cfg text isReply gid now hour dayOfWeek
  let points := r.1
  let u2 := r.2
  if points ≤ 0 then (0, u2)
  else
    let u3 := awardPoints u2 points (some gid) now
    let u4 := incrementMessages u3 (some gid) now
    let mb :=
      if cfg.enableMilestoneRewards then
        checkMilestone (u4.taxPoints - points) u4.taxPoints cfg
      else 0
    let u5 := if mb > 0 then awardPoints u4 mb none now else u4
    (points, u5)

/-- `TaxPointsService.processMessagePoints`: verification, cooldown and
daily-cap gates in order, then the award pipeline. -/
def processMessagePoints (u : UserT) (cfg : TaxCfg) (text : String)
    (isReply : Bool) (gid : ℤ) (now : ℕ) (hour : ℚ) (dayOfWeek : ℕ) :
    ℚ × UserT :=
  if !u.isVerified then (0, u)
  else if !canAwardPoints u cfg now then (0, u)
  else if !dailyGateOk u cfg gid now then (0, u)
  else
    processAward (applyDailyReset u cfg gid now) cfg text isReply gid now
      hour dayOfWeek

/-- A `VerificationSession` document. -/
structure Session where
  userId : ℤ
  groupId : ℤ
  verificationCode : String
  isCompleted : Bool
  expiresAt : ℕ
  messageId : Option ℤ
  deriving DecidableEq, Repr

/-- A decoded verification token: the embedded `userId` and `groupId`
(`parseInt(parts[0])`, `parseInt(parts[1])`) together with the full decoded
string matched against `verificationCode`. -/
structure Token where
  userId : ℤ
  groupId : ℤ
  code : String
  deriving DecidableEq, Repr

/-- Outcome of `processVerification` (the reply sent to the responder). -/
inductive VerifyOutcome where
  | notForYou
  | invalidOrExpired
  | success
  deriving DecidableEq, Repr

/-- The `findOne` filter of `processVerification`: exact
`(userId, groupId, verificationCode)` match on a pending session. -/
def sessionMatches (tok : Token) (s : Session) : Bool :=
  s.userId == tok.userId && s.groupId == tok.groupId &&
    s.verificationCode == tok.code && s.isCompleted == false

/-- `session.isCompleted = true; session.save()`. -/
def markCompleted (s : Session) : Session := { s with isCompleted := true }

/-- `VerificationService.processVerification` after token decoding: identity
check, pending-session lookup, expiry check, then single-use completion. -/
def processVerification (responderId : ℤ) (tok : Token)
    (sessions : List Session) (now : ℕ) : VerifyOutcome × List Session :=
  if responderId != tok.userId then (.notForYou, sessions)
  else
    match sessions.find? (sessionMatches tok) with
    | none => (.invalidOrExpired, sessions)
    | some s =>
      if s.expiresAt < now then (.invalidOrExpired, sessions)
      else
        (.success, updateFirst (sessionMatches tok) markCompleted sessions)

/-- A stored `TaxConfig` version document. -/
structure ConfigDoc where
  version : ℕ
  isActive : Bool
  lastUpdated : ℕ
  updatedBy : Option ℤ
  cfg : TaxCfg
  deriving DecidableEq, Repr

/-- A `Partial<ITaxConfig>` update, restricted to the modelled fields. -/
structure TaxCfgPatch where
  welcomeBonus : Option ℚ := none
  baseMessagePoints : Option ℚ := none
  dailyFirstMessageBonus : Option ℚ := none
  minMessageLength : Option ℚ := none
  qualityMessageLength : Option ℚ := none
  qualityMultiplier : Option ℚ := none
  replyBonus : Option ℚ := none
  maxStreakMultiplier : Option ℚ := none
  cooldownSeconds : Option ℚ := none
  maxPointsPerDay : Option ℚ := none
  diminishingReturnsThreshold : Option ℚ := none
  diminishingReturnsFactor : Option ℚ := none
  weekendMultiplier : Option ℚ := none
  nightOwlBonus : Option NightOwl := none
  streakMultipliers : Option (List StreakTier) := none
  milestoneRewards : Option (List Milestone) := none
  enableQualityMultiplier : Option Bool := none
  enableDailyBonus : Option Bool := none
  enableStreakMultiplier : Option Bool := none
  enableTimeMultiplier : Option Bool := none
  enableMilestoneRewards : Option Bool := none
  deriving DecidableEq, Repr

/-- Numeric-bounds filter of `validateConfigUpdates`: keep the field only
when `min ≤ value ≤ max`, silently drop it otherwise. -/
def validBound (v : Option ℚ) (lo hi : ℚ) : Option ℚ :=
  match v with
  | none => none
  | some x => if lo ≤ x ∧ x ≤ hi then some x else none

/-- `TaxConfigService.validateConfigUpdates`, restricted to the modelled
fields: bounds-check the numeric fields, pass booleans through, check the
night-owl window, and sort the validated tables. -/
def validateConfigUpdates (p : TaxCfgPatch) : TaxCfgPatch where
  welcomeBonus := validBound p.welcomeBonus 0 10000
  baseMessagePoints := validBound p.baseMessagePoints 0 100
  dailyFirstMessageBonus := validBound p.dailyFirstMessageBonus 0 1000
  minMessageLength := validBound p.minMessageLength 1 100
  qualityMessageLength := validBound p.qualityMessageLength 1 500
  qualityMultiplier := validBound p.qualityMultiplier 1 5
  replyBonus := validBound p.replyBonus 0 50
  maxStreakMultiplier := validBound p.maxStreakMultiplier 1 10
  cooldownSeconds := validBound p.cooldownSeconds 0 3600
  maxPointsPerDay := validBound p.maxPointsPerDay 1 50000
  diminishingReturnsThreshold :=
    validBound p.diminishingReturnsThreshold 1 1000
  diminishingReturnsFactor := validBound p.diminishingReturnsFactor 0.1 1
  weekendMultiplier := validBound p.weekendMultiplier 1 5
  nightOwlBonus :=
    match p.nightOwlBonus with
    | none => none
    | some b =>
      if b.startHour ≥ 0 ∧ b.startHour ≤ 23 ∧ b.endHour ≥ 0 ∧
          b.endHour ≤ 23 ∧ b.bonus ≥ 1 ∧ b.bonus ≤ 5
      then some b else none
  streakMultipliers :=
    match p.streakMultipliers with
    | none => none
    | some l =>
      if l.all (fun sm => sm.days ≥ 1 ∧ sm.multiplier ≥ 1 ∧
          sm.multiplier ≤ 10)
      then some (l.insertionSort (fun a b => a.days ≤ b.days)) else none
  milestoneRewards :=
    match p.milestoneRewards with
    | none => none
    | some l =>
      if l.all (fun mr => mr.points ≥ 1 ∧ mr.bonus ≥ 1)
      then some (l.insertionSort (fun a b => a.points ≤ b.points))
      else none
  enableQualityMultiplier := p.enableQualityMultiplier
  enableDailyBonus := p.enableDailyBonus
  enableStreakMultiplier := p.enableStreakMultiplier
  enableTimeMultiplier := p.enableTimeMultiplier
  enableMilestoneRewards := p.enableMilestoneRewards

/-- The JavaScript object spread `{...currentConfig, ...validatedUpdates}`:
each field present in the patch replaces the base field. -/
def applyPatch (c : TaxCfg) (p : TaxCfgPatch) : TaxCfg where
  welcomeBonus := p.welcomeBonus.getD c.welcomeBonus
  baseMessagePoints := p.baseMessagePoints.getD c.baseMessagePoints
  dailyFirstMessageBonus :=
    p.dailyFirstMessageBonus.getD c.dailyFirstMessageBonus
  minMessageLength := p.minMessageLength.getD c.minMessageLength
  qualityMessageLength := p.qualityMessageLength.getD c.qualityMessageLength
  qualityMultiplier := p.qualityMultiplier.getD c.qualityMultiplier
  replyBonus := p.replyBonus.getD c.replyBonus
  streakMultipliers := p.streakMultipliers.getD c.streakMultipliers
  maxStreakMultiplier := p.maxStreakMultiplier.getD c.maxStreakMultiplier
  cooldownSeconds := p.cooldownSeconds.getD c.cooldownSeconds
  maxPointsPerDay := p.maxPointsPerDay.getD c.maxPointsPerDay
  diminishingReturnsThreshold :=
    p.diminishingReturnsThreshold.getD c.diminishingReturnsThreshold
  diminishingReturnsFactor :=
    p.diminishingReturnsFactor.getD c.diminishingReturnsFactor
  milestoneRewards := p.milestoneRewards.getD c.milestoneRewards
  weekendMultiplier := p.weekendMultiplier.getD c.weekendMultiplier
  nightOwlBonus := p.nightOwlBonus.getD c.nightOwlBonus
  enableQualityMultiplier :=
    p.enableQualityMultiplier.getD c.enableQualityMultiplier
  enableDailyBonus := p.enableDailyBonus.getD c.enableDailyBonus
  enableStreakMultiplier :=
    p.enableStreakMultiplier.getD c.enableStreakMultiplier
  enableTimeMultiplier := p.enableTimeMultiplier.getD c.enableTimeMultiplier
  enableMilestoneRewards :=
    p.enableMilestoneRewards.getD c.enableMilestoneRewards

/-- `TaxConfig.findOne({ isActive: true }).sort({ version: -1 })`: the
first stored document with the greatest version among the active ones. -/
def activeDoc (s : List ConfigDoc) : Option ConfigDoc :=
  (s.filter (fun d => d.isActive)).foldl
    (fun acc d =>
      match acc with
      | none => some d
      | some b => if d.version > b.version then some d else acc)
    none

/-- `updateMany({_id: {$ne: newConfig._id}}, {isActive: false})` applied to
one prior document. -/
def deactivate (d : ConfigDoc) : ConfigDoc := { d with isActive := false }

/-- The new version document written by `updateConfig`: the active
document's fields spread under the validated updates, version bumped by
one; `isActive` is inherited from the spread of the active document. -/
def mkUpdatedDoc (cur : ConfigDoc) (p : TaxCfgPatch) (now : ℕ)
    (actor : Option ℤ) : ConfigDoc where
  version := cur.version + 1
  isActive := cur.isActive
  lastUpdated := now
  updatedBy := actor
  cfg := applyPatch cur.cfg (validateConfigUpdates p)

/-- `TaxConfigService.updateConfig` on the stored version set: no active
configuration throws (store unchanged); otherwise append the new version
and deactivate every other document. -/
def updateConfigStore (s : List ConfigDoc) (p : TaxCfgPatch) (now : ℕ)
    (actor : Option ℤ) : List ConfigDoc :=
  match activeDoc s with
  | none => s
  | some cur => s.map deactivate ++ [mkUpdatedDoc cur p now actor]

/-- `Math.max(...existingConfigs.map(c => c.version))` over the whole
store. -/
def maxVersion (s : List ConfigDoc) : ℕ :=
  s.foldl (fun m d => max m d.version) 0

/-- The new version document written by `revertToVersion`: the target
version's fields under a fresh version number, explicitly active. -/
def mkRevertedDoc (s : List ConfigDoc) (tgt : ConfigDoc) (now : ℕ)
    (actor : Option ℤ) : ConfigDoc where
  version := if s.length > 0 then maxVersion s + 1 else 1
  isActive := true
  lastUpdated := now
  updatedBy := actor
  cfg := tgt.cfg

/-- `TaxConfigService.revertToVersion`: missing target version throws
(store unchanged); otherwise clone the target's fields into a brand-new
version and deactivate every other document. -/
def revertStore (s : List ConfigDoc) (v : ℕ) (now : ℕ)
    (actor : Option ℤ) : List ConfigDoc :=
  match s.find? (fun d => d.version == v) with
  | none => s
  | some tgt => s.map deactivate ++ [mkRevertedDoc s tgt now actor]

/-- Number of stored versions with the active flag set. -/
def countActive (s : List ConfigDoc) : ℕ :=
  (s.filter (fun d => d.isActive)).length

/-! ### Concrete states used to evaluate the pipeline -/

/-- Noon of an arbitrary calendar day (day index 20000). -/
def noonTs : ℕ := msPerDay * 20000 + 12 * 3600000

/-- A group-activity record showing an earlier message today (one hour
before `noonTs`), with the daily counter at 0 and the reset stamp from
earlier today. -/
def gaToday : GroupActivity :=
  { groupId := 7, messagesCount := 5, pointsEarned := 10,
    lastMessageDate := some (msPerDay * 20000 + 11 * 3600000),
    dailyPoints := 0,
    lastDailyReset := some (msPerDay * 20000 + 11 * 3600000) }

/-- A verified user who already messaged group 7 earlier today and is not
on cooldown. -/
def activeUser : UserT :=
  { userId := 1, isVerified := true, taxPoints := 0, totalPointsEarned := 0,
    messagesCount := 5, dailyStreak := 0, lastStreakDate := none,
    lastPointAward := none, lastActivityDate := none,
    groupActivity := [gaToday] }

/-- A verified user with no activity at all. -/
def freshVerifiedUser : UserT := { mkUser 2 with isVerified := true }

/-- Claim C1: for a message shorter than `minMessageLength` the code is
claimed to award 0 points with the quality multiplier short-circuiting the
pipeline and the `max(1, round(…))` floor not applying. The code instead
always applies the floor and keeps adding the additive bonuses after the 0
multiplier: a verified user past every gate sending the 2-character message
"hi" (below the default `minMessageLength = 5`) is awarded 1 point, and 50
points when it is their first message of the day (the
`dailyFirstMessageBonus` survives the zero quality multiplier). -/
theorem short_message_still_awarded :
    ((2 : ℚ) < defaultConfig.minMessageLength
      ∧ ("hi".length : ℚ) = 2
      ∧ activeUser.isVerified = true
      ∧ canAwardPoints activeUser defaultConfig noonTs = true
      ∧ dailyGateOk activeUser defaultConfig 7 noonTs = true)
    ∧ (processMessagePoints activeUser defaultConfig "hi" false 7 noonTs
        12 1).1 = 1
    ∧ (processMessagePoints freshVerifiedUser defaultConfig "hi" false 7
        noonTs 12 1).1 = 50 := by
  refine ⟨⟨?_, ?_, ?_, ?_, ?_⟩, ?_, ?_⟩
  · norm_num [defaultConfig]
  · norm_num [show ("hi".length = 2) from rfl]
  · rfl
  · rfl
  · norm_num [dailyGateOk, findGA, activeUser, gaToday, canAwardDailyPoints,
      noonTs, dayStart, dayOf, msPerDay, defaultConfig, List.find?]
  · norm_num [processMessagePoints, canAwardPoints, dailyGateOk,
      applyDailyReset, findGA, canAwardDailyPoints, processAward,
      calculateMessagePoints, getQualityMultiplier, isFirstMessageToday,
      getStreakMultiplier, streakLoop, getTimeMultiplier,
      getHourlyMessageCount, jsRound, updateFirst, activeUser, gaToday,
      defaultConfig, noonTs, dayStart, dayOf, msPerDay, awardPoints,
      incrementMessages, checkMilestone, milestoneLoop, List.find?,
      show ("hi".length = 2) from rfl]
  · norm_num [processMessagePoints, canAwardPoints, dailyGateOk,
      applyDailyReset, findGA, canAwardDailyPoints, processAward,
      calculateMessagePoints, getQualityMultiplier, isFirstMessageToday,
      getStreakMultiplier, streakLoop, getTimeMultiplier,
      getHourlyMessageCount, jsRound, updateFirst, freshVerifiedUser,
      mkUser, defaultConfig, noonTs, dayStart, dayOf, msPerDay, awardPoints,
      updateStreak, incrementMessages, checkMilestone, milestoneLoop,
      List.find?, show ("hi".length = 2) from rfl]

/-- Claim C10: the night-owl bonus applies exactly to hours `h` with
`h ≥ startHour ∨ h ≤ endHour` (an inclusive-OR wrapping window), the
weekend and night-owl multipliers compose multiplicatively, and with the
default window `startHour = 22, endHour = 6` the hours 23 and 1 receive
the bonus while hour 12 does not. -/
theorem nightOwl_window_wraps (cfg : TaxCfg) (hour : ℚ) (dayOfWeek : ℕ) :
    getTimeMultiplier cfg hour dayOfWeek
      = (if dayOfWeek == 0 || dayOfWeek == 6 then cfg.weekendMultiplier
         else 1)
        * (if hour ≥ cfg.nightOwlBonus.startHour
              ∨ hour ≤ cfg.nightOwlBonus.endHour
           then cfg.nightOwlBonus.bonus else 1)
    ∧ getTimeMultiplier defaultConfig 23 1 = defaultConfig.nightOwlBonus.bonus
    ∧ getTimeMultiplier defaultConfig 1 1 = defaultConfig.nightOwlBonus.bonus
    ∧ getTimeMultiplier defaultConfig 12 1 = 1 := by
  refine ⟨?_, ?_, ?_, ?_⟩
  · simp only [getTimeMultiplier]
    split <;> split <;> ring
  · norm_num [getTimeMultiplier, defaultConfig]
  · norm_num [getTimeMultiplier, defaultConfig]
  · norm_num [getTimeMultiplier, defaultConfig]

/-! ### Projection lemmas for the user-state operations -/

theorem awardPoints_taxPoints (u : UserT) (a : ℚ) (g : Option ℤ) (n : ℕ) :
    (awardPoints u a g n).taxPoints = u.taxPoints + a := by
  unfold awardPoints
  cases g with
  | none => rfl
  | some gid => cases h : findGA u.groupActivity gid <;> simp [h]

theorem awardPoints_totalPointsEarned (u : UserT) (a : ℚ) (g : Option ℤ)
    (n : ℕ) :
    (awardPoints u a g n).totalPointsEarned = u.totalPointsEarned + a := by
  unfold awardPoints
  cases g with
  | none => rfl
  | some gid => cases h : findGA u.groupActivity gid <;> simp [h]

theorem awardPoints_lastPointAward (u : UserT) (a : ℚ) (g : Option ℤ)
    (n : ℕ) : (awardPoints u a g n).lastPointAward = some n := by
  unfold awardPoints
  cases g with
  | none => rfl
  | some gid => cases h : findGA u.groupActivity gid <;> simp [h]

theorem awardPoints_isVerified (u : UserT) (a : ℚ) (g : Option ℤ)
    (n : ℕ) : (awardPoints u a g n).isVerified = u.isVerified := by
  unfold awardPoints
  cases g with
  | none => rfl
  | some gid => cases h : findGA u.groupActivity gid <;> simp [h]

theorem incrementMessages_taxPoints (u : UserT) (g : Option ℤ) (n : ℕ) :
    (incrementMessages u g n).taxPoints = u.taxPoints := by
  unfold incrementMessages
  cases g with
  | none => rfl
  | some gid => cases h : findGA u.groupActivity gid <;> simp [h]

theorem incrementMessages_lastPointAward (u : UserT) (g : Option ℤ)
    (n : ℕ) :
    (incrementMessages u g n).lastPointAward = u.lastPointAward := by
  unfold incrementMessages
  cases g with
  | none => rfl
  | some gid => cases h : findGA u.groupActivity gid <;> simp [h]

theorem incrementMessages_isVerified (u : UserT) (g : Option ℤ) (n : ℕ) :
    (incrementMessages u g n).isVerified = u.isVerified := by
  unfold incrementMessages
  cases g with
  | none => rfl
  | some gid => cases h : findGA u.groupActivity gid <;> simp [h]

theorem updateStreak_taxPoints (u : UserT) (n : ℕ) :
    (updateStreak u n).taxPoints = u.taxPoints := rfl

theorem updateStreak_lastPointAward (u : UserT) (n : ℕ) :
    (updateStreak u n).lastPointAward = u.lastPointAward := rfl

theorem updateStreak_isVerified (u : UserT) (n : ℕ) :
    (updateStreak u n).isVerified = u.isVerified := rfl

theorem applyDailyReset_taxPoints (u : UserT) (cfg : TaxCfg) (gid : ℤ)
    (n : ℕ) : (applyDailyReset u cfg gid n).taxPoints = u.taxPoints := by
  unfold applyDailyReset
  cases h : findGA u.groupActivity gid <;> simp [h]

theorem applyDailyReset_lastPointAward (u : UserT) (cfg : TaxCfg) (gid : ℤ)
    (n : ℕ) :
    (applyDailyReset u cfg gid n).lastPointAward = u.lastPointAward := by
  unfold applyDailyReset
  cases h : findGA u.groupActivity gid <;> simp [h]

theorem applyDailyReset_isVerified (u : UserT) (cfg : TaxCfg) (gid : ℤ)
    (n : ℕ) : (applyDailyReset u cfg gid n).isVerified = u.isVerified := by
  unfold applyDailyReset
  cases h : findGA u.groupActivity gid <;> simp [h]

/-- The only state change `calculateMessagePoints` makes is the streak
update fired on the first message of the day. -/
theorem calc_snd_eq (u : UserT) (cfg : TaxCfg) (text : String) (rep : Bool)
    (gid : ℤ) (now : ℕ) (hour : ℚ) (dow : ℕ) :
    (calculateMessagePoints u cfg text rep gid now hour dow).2
      = if isFirstMessageToday u gid now && cfg.enableDailyBonus then
          updateStreak u now
        else u := by
  unfold calculateMessagePoints
  dsimp only
  split <;> rfl

/-- The calculated amount is always at least 1 (the `Math.max(1, …)`
floor). -/
theorem calc_fst_ge_one (u : UserT) (cfg : TaxCfg) (text : String)
    (rep : Bool) (gid : ℤ) (now : ℕ) (hour : ℚ) (dow : ℕ) :
    1 ≤ (calculateMessagePoints u cfg text rep gid now hour dow).1 := by
  unfold calculateMessagePoints
  dsimp only
  exact_mod_cast le_max_left 1 _

/-- Claim C7: `awardPoints` increments both totals by the same amount, so
the invariant `taxPoints ≤ totalPointsEarned` is preserved by every award
with a non-negative amount; both counters start at 0 on a newly created
user document. -/
theorem awardPoints_preserves_le_total (u : UserT) (amount : ℚ)
    (groupId : Option ℤ) (now : ℕ) (uid : ℤ)
    (hinv : u.taxPoints ≤ u.totalPointsEarned) (hamt : 0 ≤ amount) :
    (awardPoints u amount groupId now).taxPoints
        ≤ (awardPoints u amount groupId now).totalPointsEarned
    ∧ (awardPoints u amount groupId now).taxPoints = u.taxPoints + amount
    ∧ (awardPoints u amount groupId now).totalPointsEarned
        = u.totalPointsEarned + amount
    ∧ (mkUser uid).taxPoints = 0
    ∧ (mkUser uid).totalPointsEarned = 0 := by
  refine ⟨?_, awardPoints_taxPoints u amount groupId now,
    awardPoints_totalPointsEarned u amount groupId now, rfl, rfl⟩
  rw [awardPoints_taxPoints, awardPoints_totalPointsEarned]
  exact add_le_add_right hinv amount

/-- Witness for C7 at a concrete state: the fresh verified user with equal
totals awarded 5 points in group 7. -/
theorem awardPoints_preserves_le_total_witness :
    (awardPoints freshVerifiedUser 5 (some 7) noonTs).taxPoints
        ≤ (awardPoints freshVerifiedUser 5 (some 7) noonTs).totalPointsEarned
    ∧ (awardPoints freshVerifiedUser 5 (some 7) noonTs).taxPoints
        = freshVerifiedUser.taxPoints + 5
    ∧ (awardPoints freshVerifiedUser 5 (some 7) noonTs).totalPointsEarned
        = freshVerifiedUser.totalPointsEarned + 5
    ∧ (mkUser 9).taxPoints = 0
    ∧ (mkUser 9).totalPointsEarned = 0 :=
  awardPoints_preserves_le_total freshVerifiedUser 5 (some 7) noonTs 9
    (le_refl 0) (by norm_num)

/-- Claim C8: the streak transition of `updateStreak`: no prior streak date
gives streak 1; a streak date on yesterday's calendar day increments the
streak; a date more than one calendar day back resets it to 1; a date on
today's calendar day leaves it unchanged; and the streak date is stamped
with the current time in every case. -/
theorem updateStreak_transition (u : UserT) (now : ℕ) :
    (u.lastStreakDate = none → (updateStreak u now).dailyStreak = 1)
    ∧ (∀ last, u.lastStreakDate = some last →
        (dayOf now : ℤ) - (dayOf last : ℤ) = 1 →
        (updateStreak u now).dailyStreak = u.dailyStreak + 1)
    ∧ (∀ last, u.lastStreakDate = some last →
        1 < (dayOf now : ℤ) - (dayOf last : ℤ) →
        (updateStreak u now).dailyStreak = 1)
    ∧ (∀ last, u.lastStreakDate = some last → dayOf last = dayOf now →
        (updateStreak u now).dailyStreak = u.dailyStreak)
    ∧ (updateStreak u now).lastStreakDate = some now := by
  refine ⟨?_, ?_, ?_, ?_, rfl⟩
  · intro h; simp [updateStreak, h]
  · intro last h hdiff; simp [updateStreak, h, hdiff]
  · intro last h hdiff
    have h1 : ¬((dayOf now : ℤ) - (dayOf last : ℤ) = 1) := by omega
    simp [updateStreak, h, h1, hdiff]
  · intro last h hsame
    have h1 : (dayOf now : ℤ) - (dayOf last : ℤ) = 0 := by omega
    simp [updateStreak, h, h1]

/-- A user state with a given streak and streak date, for exercising the
streak transition. -/
def streakUser (s : ℚ) (last : Option ℕ) : UserT :=
  { mkUser 5 with dailyStreak := s, lastStreakDate := last }

/-- Witness for C8: the four transition cases at noon of day 20000 with
streak 4 — unset date, yesterday, three days ago, and earlier today. -/
theorem updateStreak_transition_witness :
    (updateStreak (streakUser 4 none) noonTs).dailyStreak = 1
    ∧ (updateStreak (streakUser 4 (some (noonTs - msPerDay)))
        noonTs).dailyStreak = 4 + 1
    ∧ (updateStreak (streakUser 4 (some (noonTs - 3 * msPerDay)))
        noonTs).dailyStreak = 1
    ∧ (updateStreak (streakUser 4 (some (msPerDay * 20000 + 11 * 3600000)))
        noonTs).dailyStreak = 4
    ∧ (updateStreak (streakUser 4 none) noonTs).lastStreakDate
        = some noonTs := by
  refine ⟨(updateStreak_transition _ noonTs).1 rfl,
    ((updateStreak_transition _ noonTs).2.1 _ rfl ?_),
    ((updateStreak_transition _ noonTs).2.2.1 _ rfl ?_),
    ((updateStreak_transition _ noonTs).2.2.2.1 _ rfl ?_),
    (updateStreak_transition _ noonTs).2.2.2.2⟩
  · norm_num [noonTs, dayOf, msPerDay]
  · norm_num [noonTs, dayOf, msPerDay]
  · norm_num [noonTs, dayOf, msPerDay]

/-- Mapping a projection preserved by `f` over `updateFirst` changes
nothing. -/
theorem map_updateFirst_of_proj (p : α → Bool) (f : α → α) (proj : α → β)
    (hf : ∀ x, proj (f x) = proj x) :
    ∀ l : List α, (updateFirst p f l).map proj = l.map proj := by
  intro l
  induction l with
  | nil => rfl
  | cons x xs ih =>
    by_cases h : p x
    · simp [updateFirst, h, hf]
    · simp [updateFirst, h, ih]

/-- Claim C6: no operation increments `dailyPoints`: `awardPoints` and
`incrementMessages` keep every existing entry's `dailyPoints` and create
new entries with `dailyPoints = 0`, and the only write `canAwardDailyPoints`
performs is the reset to 0 (otherwise it returns the record untouched). -/
theorem dailyPoints_never_incremented (u : UserT) (pts : ℚ) (gid : ℤ)
    (now : ℕ) (g : GroupActivity) (cfg : TaxCfg) :
    ((awardPoints u pts (some gid) now).groupActivity.map
        (fun x => (x.groupId, x.dailyPoints))
      = if (findGA u.groupActivity gid).isSome then
          u.groupActivity.map (fun x => (x.groupId, x.dailyPoints))
        else
          u.groupActivity.map (fun x => (x.groupId, x.dailyPoints))
            ++ [(gid, 0)])
    ∧ ((incrementMessages u (some gid) now).groupActivity.map
        (fun x => (x.groupId, x.dailyPoints))
      = if (findGA u.groupActivity gid).isSome then
          u.groupActivity.map (fun x => (x.groupId, x.dailyPoints))
        else
          u.groupActivity.map (fun x => (x.groupId, x.dailyPoints))
            ++ [(gid, 0)])
    ∧ ((canAwardDailyPoints g cfg now).2
        = { g with dailyPoints := 0, lastDailyReset := some now }
      ∨ (canAwardDailyPoints g cfg now).2 = g) := by
  refine ⟨?_, ?_, ?_⟩
  · unfold awardPoints
    cases h : findGA u.groupActivity gid with
    | some ga =>
      simp [h]
      refine map_updateFirst_of_proj _ _ _ ?_ _
      intro x
      rfl
    | none => simp [h]
  · unfold incrementMessages
    cases h : findGA u.groupActivity gid with
    | some ga =>
      simp [h]
      refine map_updateFirst_of_proj _ _ _ ?_ _
      intro x
      rfl
    | none => simp [h]
  · unfold canAwardDailyPoints
    cases hr : g.lastDailyReset with
    | none => left; rfl
    | some r =>
      by_cases hlt : r < dayStart now
      · left; simp [hlt]
      · right; simp [hlt]

/-- Claim C5: with the stored reset date not predating today's midnight and
the daily counter at or above `maxPointsPerDay`, every
`processMessagePoints` call for that group yields 0 and leaves the user
untouched; and whenever the reset date is absent or predates today's
midnight, the gate resets the counter to 0 and passes. -/
theorem daily_cap_blocks (u : UserT) (cfg : TaxCfg) (text : String)
    (rep : Bool) (gid : ℤ) (now : ℕ) (hour : ℚ) (dow : ℕ)
    (g : GroupActivity) (r : ℕ)
    (hga : findGA u.groupActivity gid = some g)
    (hr : g.lastDailyReset = some r)
    (hnotold : ¬ r < dayStart now)
    (hcap : cfg.maxPointsPerDay ≤ g.dailyPoints) :
    processMessagePoints u cfg text rep gid now hour dow = (0, u)
    ∧ (∀ g2 : GroupActivity, g2.lastDailyReset = none →
        canAwardDailyPoints g2 cfg now
          = (true, { g2 with dailyPoints := 0, lastDailyReset := some now }))
    ∧ (∀ (g2 : GroupActivity) (r2 : ℕ), g2.lastDailyReset = some r2 →
        r2 < dayStart now →
        canAwardDailyPoints g2 cfg now
          = (true, { g2 with dailyPoints := 0, lastDailyReset := some now }))
    := by
  refine ⟨?_, ?_, ?_⟩
  · have hgate : dailyGateOk u cfg gid now = false := by
      simp [dailyGateOk, hga, canAwardDailyPoints, hr, hnotold,
        not_lt.mpr hcap]
    cases hv : u.isVerified <;>
      cases hc : canAwardPoints u cfg now <;>
        simp [processMessagePoints, hv, hc, hgate]
  · intro g2 h2; simp [canAwardDailyPoints, h2]
  · intro g2 r2 h2 hlt2; simp [canAwardDailyPoints, h2, hlt2]

/-- The group-7 record with the daily counter at the default cap. -/
def gaCapped : GroupActivity := { gaToday with dailyPoints := 500 }

/-- A verified user whose group-7 daily counter is at the cap. -/
def cappedUser : UserT := { activeUser with groupActivity := [gaCapped] }

/-- Witness for C5: the capped user gets 0 for a further message today, and
a record last reset three days ago is reset to 0 and passes the gate. -/
theorem daily_cap_blocks_witness :
    processMessagePoints cappedUser defaultConfig "a long enough message"
        false 7 noonTs 12 1 = (0, cappedUser)
    ∧ canAwardDailyPoints
        { gaToday with lastDailyReset := some (noonTs - 3 * msPerDay) }
        defaultConfig noonTs
      = (true, { gaToday with dailyPoints := 0, lastDailyReset := some noonTs })
    := by
  have h := daily_cap_blocks cappedUser defaultConfig
    "a long enough message" false 7 noonTs 12 1 gaCapped
    (msPerDay * 20000 + 11 * 3600000) rfl rfl
    (by norm_num [dayStart, dayOf, noonTs, msPerDay])
    (by norm_num [defaultConfig, gaCapped, gaToday])
  refine ⟨h.1, ?_⟩
  have h2 := h.2.2
    { gaToday with lastDailyReset := some (noonTs - 3 * msPerDay) }
    (noonTs - 3 * msPerDay) rfl
    (by norm_num [dayStart, dayOf, noonTs, msPerDay])
  simpa using h2

/-! ### The success path of the award pipeline -/

theorem processAward_fst (u : UserT) (cfg : TaxCfg) (t : String) (r : Bool)
    (gid : ℤ) (now : ℕ) (h : ℚ) (d : ℕ) :
    (processAward u cfg t r gid now h d).1
      = (calculateMessagePoints u cfg t r gid now h d).1 := by
  have hp1 := calc_fst_ge_one u cfg t r gid now h d
  unfold processAward
  dsimp only
  rw [if_neg (by linarith)]

theorem processAward_snd_lastPointAward (u : UserT) (cfg : TaxCfg)
    (t : String) (r : Bool) (gid : ℤ) (now : ℕ) (h : ℚ) (d : ℕ) :
    (processAward u cfg t r gid now h d).2.lastPointAward = some now := by
  have hp1 := calc_fst_ge_one u cfg t r gid now h d
  unfold processAward
  dsimp only
  rw [if_neg (by linarith)]
  dsimp only
  split <;> split <;>
    first
      | rw [awardPoints_lastPointAward]
      | rw [incrementMessages_lastPointAward, awardPoints_lastPointAward]

theorem processAward_snd_isVerified (u : UserT) (cfg : TaxCfg) (t : String)
    (r : Bool) (gid : ℤ) (now : ℕ) (h : ℚ) (d : ℕ) :
    (processAward u cfg t r gid now h d).2.isVerified = u.isVerified := by
  have hp1 := calc_fst_ge_one u cfg t r gid now h d
  have hcalc : (calculateMessagePoints u cfg t r gid now h d).2.isVerified
      = u.isVerified := by
    rw [calc_snd_eq]; split <;> rfl
  unfold processAward
  dsimp only
  rw [if_neg (by linarith)]
  dsimp only
  split <;> split <;>
    first
      | rw [awardPoints_isVerified, incrementMessages_isVerified,
          awardPoints_isVerified, hcalc]
      | rw [incrementMessages_isVerified, awardPoints_isVerified, hcalc]

/-- With all three gates open, `processMessagePoints` is the award tail on
the daily-reset-threaded state. -/
theorem process_gates_open (u : UserT) (cfg : TaxCfg) (t : String)
    (r : Bool) (gid : ℤ) (now : ℕ) (h : ℚ) (d : ℕ)
    (hv : u.isVerified = true) (hc : canAwardPoints u cfg now = true)
    (hd : dailyGateOk u cfg gid now = true) :
    processMessagePoints u cfg t r gid now h d
      = processAward (applyDailyReset u cfg gid now) cfg t r gid now h d := by
  simp [processMessagePoints, hv, hc, hd]

/-- Claim C9: a call within `cooldownSeconds` of the last award returns 0
and leaves the user untouched; a user without `lastPointAward` always
passes the cooldown gate; and the second of two awards within the cooldown
window yields 0 with no state change. -/
theorem cooldown_blocks_second_award (u : UserT) (cfg : TaxCfg)
    (text : String) (rep : Bool) (gid : ℤ) (now1 now2 : ℕ) (hour : ℚ)
    (dow : ℕ) (last : ℕ) :
    (u.lastPointAward = some last →
      (now2 : ℚ) - (last : ℚ) < cfg.cooldownSeconds * 1000 →
      processMessagePoints u cfg text rep gid now2 hour dow = (0, u))
    ∧ (u.lastPointAward = none → canAwardPoints u cfg now2 = true)
    ∧ (u.isVerified = true → canAwardPoints u cfg now1 = true →
        dailyGateOk u cfg gid now1 = true →
        (now2 : ℚ) - (now1 : ℚ) < cfg.cooldownSeconds * 1000 →
        processMessagePoints
            (processMessagePoints u cfg text rep gid now1 hour dow).2
            cfg text rep gid now2 hour dow
          = (0, (processMessagePoints u cfg text rep gid now1 hour dow).2))
    := by
  refine ⟨?_, ?_, ?_⟩
  · intro hl hlt
    have hcool : canAwardPoints u cfg now2 = false := by
      simp only [canAwardPoints, hl]
      exact decide_eq_false (not_le.mpr hlt)
    cases hv : u.isVerified <;>
      simp [processMessagePoints, hv, hcool]
  · intro hl; simp [canAwardPoints, hl]
  · intro hv hc hd hlt
    have heq := process_gates_open u cfg text rep gid now1 hour dow hv hc hd
    have hsl : (processMessagePoints u cfg text rep gid now1 hour
        dow).2.lastPointAward = some now1 := by
      rw [heq]; exact processAward_snd_lastPointAward _ _ _ _ _ _ _ _
    have hcool : canAwardPoints
        (processMessagePoints u cfg text rep gid now1 hour dow).2 cfg now2
        = false := by
      simp only [canAwardPoints, hsl]
      exact decide_eq_false (not_le.mpr hlt)
    set s := (processMessagePoints u cfg text rep gid now1 hour dow).2
      with hs
    cases hv2 : s.isVerified <;> simp [processMessagePoints, hv2, hcool]

/-- Witness for C9: the fresh verified user awarded at noon, then blocked
one second later; and the cooldown gate passes with no prior award. -/
theorem cooldown_blocks_second_award_witness :
    processMessagePoints
        (processMessagePoints freshVerifiedUser defaultConfig "hello there"
          false 7 noonTs 12 1).2
        defaultConfig "hello there" false 7 (noonTs + 1000) 12 1
      = (0, (processMessagePoints freshVerifiedUser defaultConfig
          "hello there" false 7 noonTs 12 1).2)
    ∧ canAwardPoints freshVerifiedUser defaultConfig (noonTs + 1000) = true
    := by
  have h := cooldown_blocks_second_award freshVerifiedUser defaultConfig
    "hello there" false 7 noonTs (noonTs + 1000) 12 1 0
  refine ⟨h.2.2 rfl rfl rfl ?_, h.2.1 rfl⟩
  have : ((noonTs + 1000 : ℕ) : ℚ) - (noonTs : ℚ) = 1000 := by
    push_cast
    ring
  rw [this]
  norm_num [defaultConfig]

/-- The loop guard of `checkMilestone` as a predicate:
`oldPoints < milestone.points && newPoints >= milestone.points`. -/
def straddleB (old new : ℚ) (m : Milestone) : Bool :=
  decide (old < m.points) && decide (new ≥ m.points)

/-- `milestoneLoop` returns the bonus of the first straddled entry, 0 when
none is straddled. -/
theorem milestoneLoop_eq_find (old new : ℚ) :
    ∀ ms : List Milestone,
      milestoneLoop old new ms
        = ((ms.find? (straddleB old new)).map Milestone.bonus).getD 0 := by
  intro ms
  induction ms with
  | nil => rfl
  | cons m ms ih =>
    by_cases h : old < m.points ∧ new ≥ m.points
    · have hb : straddleB old new m = true := by
        simp [straddleB, h.1, h.2]
      simp [milestoneLoop, h, hb]
    · have hb : straddleB old new m = false := by
        rw [straddleB]
        rcases not_and_or.mp h with h1 | h1 <;> simp [decide_eq_false h1]
      simp [milestoneLoop, h, hb, ih]

/-- In a list sorted by threshold, the first straddled entry has the lowest
threshold among all straddled entries. -/
theorem find_straddle_min (old new : ℚ) :
    ∀ ms : List Milestone,
      ms.Pairwise (fun a b => a.points ≤ b.points) →
      ∀ m0, ms.find? (straddleB old new) = some m0 →
      ∀ m ∈ ms, straddleB old new m = true → m0.points ≤ m.points := by
  intro ms
  induction ms with
  | nil => intro _ m0 h; cases h
  | cons x xs ih =>
    intro hp m0 hfind m hm hsm
    rcases List.pairwise_cons.mp hp with ⟨hx, hp2⟩
    by_cases hsx : straddleB old new x = true
    · rw [List.find?_cons_of_pos _ hsx] at hfind
      injection hfind with h0
      subst h0
      rcases List.mem_cons.mp hm with h1 | hm2
      · rw [h1]
      · exact hx m hm2
    · rw [List.find?_cons_of_neg _ (by simpa using hsx)] at hfind
      rcases List.mem_cons.mp hm with h1 | hm2
      · rw [h1] at hsm; exact absurd hsm hsx
      · exact ih hp2 m0 hfind m hm2 hsm

/-- A straddled entry makes `find?` succeed. -/
theorem find_straddle_isSome (old new : ℚ) (ms : List Milestone)
    (m : Milestone) (hm : m ∈ ms) (hsm : straddleB old new m = true) :
    (ms.find? (straddleB old new)).isSome := by
  rw [List.find?_isSome]
  exact ⟨m, hm, hsm⟩

/-- The resulting total of a gate-passing award: the pre-award total plus
the computed amount plus the milestone top-up exactly when milestones are
enabled and a threshold was crossed. -/
theorem processAward_snd_taxPoints (u : UserT) (cfg : TaxCfg) (t : String)
    (r : Bool) (gid : ℤ) (now : ℕ) (h : ℚ) (d : ℕ) :
    (processAward u cfg t r gid now h d).2.taxPoints
      = u.taxPoints + (processAward u cfg t r gid now h d).1
        + (if cfg.enableMilestoneRewards
              ∧ 0 < checkMilestone u.taxPoints
                  (u.taxPoints + (processAward u cfg t r gid now h d).1) cfg
           then checkMilestone u.taxPoints
                  (u.taxPoints + (processAward u cfg t r gid now h d).1) cfg
           else 0) := by
  have hp1 := calc_fst_ge_one u cfg t r gid now h d
  have hu2tax : (calculateMessagePoints u cfg t r gid now h d).2.taxPoints
      = u.taxPoints := by
    rw [calc_snd_eq]; split <;> rfl
  have hu4tax : (incrementMessages
      (awardPoints (calculateMessagePoints u cfg t r gid now h d).2
        (calculateMessagePoints u cfg t r gid now h d).1 (some gid) now)
      (some gid) now).taxPoints
      = u.taxPoints + (calculateMessagePoints u cfg t r gid now h d).1 := by
    rw [incrementMessages_taxPoints, awardPoints_taxPoints, hu2tax]
  rw [processAward_fst]
  unfold processAward
  dsimp only
  rw [if_neg (by linarith)]
  dsimp only
  rw [hu4tax, add_sub_cancel_right]
  by_cases hm : cfg.enableMilestoneRewards = true
  · rw [if_pos hm]
    by_cases hpos : 0 < checkMilestone u.taxPoints
        (u.taxPoints + (calculateMessagePoints u cfg t r gid now h d).1) cfg
    · rw [if_pos hpos, if_pos ⟨hm, hpos⟩, awardPoints_taxPoints, hu4tax]
    · rw [if_neg hpos, if_neg (fun hc => hpos hc.2), hu4tax, add_zero]
  · rw [if_neg hm, if_neg (lt_irrefl 0), hu4tax,
      if_neg (fun hc => hm hc.1), add_zero]

/-- Claim C2: with the milestone table sorted by threshold, `checkMilestone`
returns the bonus of the first (lowest) straddled threshold
(`old < threshold ≤ new`), 0 when no threshold is straddled, and a
gate-passing award applies exactly that one bonus as an extra top-up on the
resulting total, with no further gating beyond the enable flag and the
positivity of the returned bonus. -/
theorem milestone_fires_once (cfg : TaxCfg) (old new : ℚ) (m0 : Milestone)
    (hsort : cfg.milestoneRewards.Pairwise
      (fun a b => a.points ≤ b.points)) :
    (cfg.milestoneRewards.find? (straddleB old new) = some m0 →
      checkMilestone old new cfg = m0.bonus
      ∧ (old < m0.points ∧ m0.points ≤ new)
      ∧ ∀ m ∈ cfg.milestoneRewards, straddleB old new m = true →
          m0.points ≤ m.points)
    ∧ ((∀ m ∈ cfg.milestoneRewards, straddleB old new m = false) →
      checkMilestone old new cfg = 0)
    ∧ (∀ (u : UserT) (text : String) (rep : Bool) (gid : ℤ) (now : ℕ)
        (hour : ℚ) (dow : ℕ),
        u.isVerified = true → canAwardPoints u cfg now = true →
        dailyGateOk u cfg gid now = true →
        (processMessagePoints u cfg text rep gid now hour dow).2.taxPoints
          = u.taxPoints
            + (processMessagePoints u cfg text rep gid now hour dow).1
            + (if cfg.enableMilestoneRewards
                  ∧ 0 < checkMilestone u.taxPoints
                      (u.taxPoints + (processMessagePoints u cfg text rep
                        gid now hour dow).1) cfg
               then checkMilestone u.taxPoints
                      (u.taxPoints + (processMessagePoints u cfg text rep
                        gid now hour dow).1) cfg
               else 0)) := by
  refine ⟨?_, ?_, ?_⟩
  · intro hfind
    have hm0 := List.find?_some hfind
    have hmem := List.mem_of_find?_eq_some hfind
    refine ⟨?_, ?_, find_straddle_min old new cfg.milestoneRewards hsort
      m0 hfind⟩
    · rw [checkMilestone, milestoneLoop_eq_find, hfind]
      rfl
    · rw [straddleB, Bool.and_eq_true, decide_eq_true_eq,
        decide_eq_true_eq] at hm0
      exact ⟨hm0.1, hm0.2⟩
  · intro hnone
    have hfind : cfg.milestoneRewards.find? (straddleB old new) = none :=
      List.find?_eq_none.mpr (fun m hm => by simp [hnone m hm])
    rw [checkMilestone, milestoneLoop_eq_find, hfind]
    rfl
  · intro u text rep gid now hour dow hv hc hd
    rw [process_gates_open u cfg text rep gid now hour dow hv hc hd]
    rw [processAward_snd_taxPoints, applyDailyReset_taxPoints]

/-- Witness for C2 at the default milestone table: the award 950→1050
crosses the 1000 threshold and pays its bonus 100; the follow-up award
1050→1100 straddles nothing and pays no milestone bonus. -/
theorem milestone_fires_once_witness :
    checkMilestone 950 1050 defaultConfig = 100
    ∧ checkMilestone 1050 1100 defaultConfig = 0 := by
  have hs : defaultConfig.milestoneRewards.Pairwise
      (fun a b => a.points ≤ b.points) := by
    simp only [defaultConfig, List.pairwise_cons, List.mem_cons,
      List.not_mem_nil]
    norm_num
  constructor
  · have hfind : defaultConfig.milestoneRewards.find?
        (straddleB 950 1050) = some ⟨1000, 100⟩ := by
      simp only [defaultConfig, List.find?]
      norm_num [straddleB]
    exact ((milestone_fires_once defaultConfig 950 1050 ⟨1000, 100⟩ hs).1
      hfind).1
  · refine (milestone_fires_once defaultConfig 1050 1100 ⟨1000, 100⟩
      hs).2.1 ?_
    intro m hm
    fin_cases hm <;> norm_num [straddleB]

/-- After updating the unique match so it no longer matches, nothing
matches. -/
theorem find?_updateFirst_none (p : α → Bool) (f : α → α)
    (hf : ∀ x, p (f x) = false) :
    ∀ l : List α, l.countP p ≤ 1 →
      (updateFirst p f l).find? p = none := by
  intro l
  induction l with
  | nil => intro _; rfl
  | cons x xs ih =>
    intro hc
    by_cases hx : p x = true
    · rw [updateFirst, if_pos hx, List.find?_cons_of_neg _ (by simp [hf])]
      have hcx : xs.countP p = 0 := by
        rw [List.countP_cons_of_pos _ _ hx] at hc
        omega
      rw [List.find?_eq_none]
      intro y hy
      have := List.countP_eq_zero.mp hcx y hy
      simp [this]
    · rw [updateFirst, if_neg hx,
        List.find?_cons_of_neg _ (by simpa using hx)]
      apply ih
      rw [List.countP_cons_of_neg _ _ (by simpa using hx)] at hc
      exact hc

/-- Claim C3: token validation rejects a responder other than the embedded
`userId`, rejects when no pending session matches the exact
`(userId, groupId, verificationCode)` triple, rejects a session whose
`expiresAt` has passed, and accepts a valid token exactly once: acceptance
marks the matching session completed, so the same token is rejected on any
later presentation. -/
theorem verification_token_single_use (responderId : ℤ) (tok : Token)
    (sessions : List Session) (now now2 : ℕ) (s : Session) :
    (responderId ≠ tok.userId →
      processVerification responderId tok sessions now
        = (.notForYou, sessions))
    ∧ (responderId = tok.userId →
      sessions.find? (sessionMatches tok) = none →
      processVerification responderId tok sessions now
        = (.invalidOrExpired, sessions))
    ∧ (responderId = tok.userId →
      sessions.find? (sessionMatches tok) = some s → s.expiresAt < now →
      processVerification responderId tok sessions now
        = (.invalidOrExpired, sessions))
    ∧ (responderId = tok.userId →
      sessions.find? (sessionMatches tok) = some s →
      ¬ s.expiresAt < now →
      processVerification responderId tok sessions now
        = (.success,
            updateFirst (sessionMatches tok) markCompleted sessions)
      ∧ (sessions.countP (sessionMatches tok) ≤ 1 →
          processVerification responderId tok
              (updateFirst (sessionMatches tok) markCompleted sessions) now2
            = (.invalidOrExpired,
                updateFirst (sessionMatches tok) markCompleted sessions)))
    := by
  have hfmc : ∀ x, sessionMatches tok (markCompleted x) = false := by
    intro x
    simp [sessionMatches, markCompleted]
  refine ⟨?_, ?_, ?_, ?_⟩
  · intro h
    have hb : (responderId != tok.userId) = true := by
      simp [bne_iff_ne, h]
    simp [processVerification, hb]
  · intro hr hfind
    have hb : (responderId != tok.userId) = false := by
      simp [bne_iff_ne, hr]
    simp [processVerification, hb, hfind]
  · intro hr hfind hexp
    have hb : (responderId != tok.userId) = false := by
      simp [bne_iff_ne, hr]
    simp [processVerification, hb, hfind, hexp]
  · intro hr hfind hexp
    have hb : (responderId != tok.userId) = false := by
      simp [bne_iff_ne, hr]
    constructor
    · simp [processVerification, hb, hfind, hexp]
    · intro hcount
      have hnone := find?_updateFirst_none (sessionMatches tok)
        markCompleted hfmc sessions hcount
      simp [processVerification, hb, hnone]

/-- The decoded token issued for user 42 in group 7. -/
def tok42 : Token := { userId := 42, groupId := 7, code := "42_7_123" }

/-- The pending session matching `tok42`, expiring at time 1000. -/
def sess42 : Session :=
  { userId := 42, groupId := 7, verificationCode := "42_7_123",
    isCompleted := false, expiresAt := 1000, messageId := none }

/-- Witness for C3: the token for user 42 presented by user 99 is rejected,
presented by user 42 before expiry is accepted (completing the session),
replaying the accepted token is rejected, and presenting it after
`expiresAt` is rejected. -/
theorem verification_token_single_use_witness :
    processVerification 99 tok42 [sess42] 500 = (.notForYou, [sess42])
    ∧ processVerification 42 tok42 [sess42] 500
      = (.success, updateFirst (sessionMatches tok42) markCompleted [sess42])
    ∧ processVerification 42 tok42
        (updateFirst (sessionMatches tok42) markCompleted [sess42]) 600
      = (.invalidOrExpired,
          updateFirst (sessionMatches tok42) markCompleted [sess42])
    ∧ processVerification 42 tok42 [sess42] 2000
      = (.invalidOrExpired, [sess42]) := by
  have h := verification_token_single_use 42 tok42 [sess42] 500 600 sess42
  have hfind : List.find? (sessionMatches tok42) [sess42] = some sess42 :=
    rfl
  have hsucc := h.2.2.2 rfl hfind (by norm_num [sess42])
  refine ⟨?_, hsucc.1, hsucc.2 (by norm_num [sess42, tok42, sessionMatches,
    List.countP, List.countP.go]), ?_⟩
  · exact (verification_token_single_use 99 tok42 [sess42] 500 600
      sess42).1 (by norm_num [tok42])
  · exact (verification_token_single_use 42 tok42 [sess42] 2000 600
      sess42).2.2.1 rfl hfind (by norm_num [sess42])

/-- The document selected by `activeDoc` has its active flag set. -/
theorem activeDoc_isActive (s : List ConfigDoc) (cur : ConfigDoc)
    (h : activeDoc s = some cur) : cur.isActive = true := by
  have key : ∀ (l : List ConfigDoc) (acc : Option ConfigDoc),
      (∀ d ∈ l, d.isActive = true) →
      (∀ b, acc = some b → b.isActive = true) →
      ∀ c, l.foldl (fun acc d =>
          match acc with
          | none => some d
          | some b => if d.version > b.version then some d else acc) acc
        = some c → c.isActive = true := by
    intro l
    induction l with
    | nil => intro acc hl hacc c hc; exact hacc c hc
    | cons x xs ih =>
      intro acc hl hacc c hc
      rw [List.foldl_cons] at hc
      refine ih _ (fun d hd => hl d (List.mem_cons_of_mem _ hd)) ?_ c hc
      intro b hb
      cases acc with
      | none =>
        injection hb with hb2
        rw [← hb2]
        exact hl x (List.mem_cons_self _ _)
      | some a =>
        dsimp at hb
        split at hb
        · injection hb with hb2
          rw [← hb2]
          exact hl x (List.mem_cons_self _ _)
        · injection hb with hb2
          rw [← hb2]
          exact hacc a rfl
  exact key _ none (fun d hd => (List.mem_filter.mp hd).2)
    (fun b hb => by cases hb) cur h

theorem le_foldl_max_init :
    ∀ (l : List ConfigDoc) (init : ℕ),
      init ≤ l.foldl (fun m d => max m d.version) init := by
  intro l
  induction l with
  | nil => intro init; exact le_refl _
  | cons x xs ih => intro init; exact le_trans (le_max_left _ _) (ih _)

/-- Every stored version is bounded by `maxVersion`. -/
theorem version_le_maxVersion (s : List ConfigDoc) :
    ∀ d ∈ s, d.version ≤ maxVersion s := by
  have key : ∀ (l : List ConfigDoc) (init : ℕ),
      ∀ d ∈ l, d.version ≤ l.foldl (fun m d => max m d.version) init := by
    intro l
    induction l with
    | nil => intro init d hd; cases hd
    | cons x xs ih =>
      intro init d hd
      rcases List.mem_cons.mp hd with h1 | h2
      · rw [h1, List.foldl_cons]
        exact le_trans (le_max_right _ _) (le_foldl_max_init xs _)
      · rw [List.foldl_cons]
        exact ih _ d h2
  exact key s 0

/-- Appending one active document to a store of deactivated documents
leaves exactly one active version. -/
theorem countActive_deactivated_append (l : List ConfigDoc)
    (d : ConfigDoc) (hd : d.isActive = true) :
    countActive (l.map deactivate ++ [d]) = 1 := by
  rw [countActive, List.filter_append, List.length_append]
  have h1 : (l.map deactivate).filter (fun d => d.isActive) = [] := by
    rw [List.filter_eq_nil_iff]
    intro a ha
    rcases List.mem_map.mp ha with ⟨b, hb, hba⟩
    rw [← hba]
    simp [deactivate]
  rw [h1]
  simp [hd]

/-- Claim C4: `updateConfig` rewrites every prior document only by clearing
its active flag and appends a new document at version
`previous-active-version + 1`; after `updateConfig` or `revertToVersion`
exactly one stored version is active; and `revertToVersion v` writes a
brand-new version numbered `maxVersion + 1`, strictly above `v` and above
every stored version, never reusing the old number. -/
theorem config_versioning (s : List ConfigDoc) (p : TaxCfgPatch)
    (now : ℕ) (actor : Option ℤ) (v : ℕ) (now2 : ℕ) (actor2 : Option ℤ)
    (cur tgt : ConfigDoc)
    (hcur : activeDoc s = some cur)
    (htgt : s.find? (fun d => d.version == v) = some tgt) :
    updateConfigStore s p now actor
      = s.map deactivate ++ [mkUpdatedDoc cur p now actor]
    ∧ (mkUpdatedDoc cur p now actor).isActive = true
    ∧ (mkUpdatedDoc cur p now actor).version = cur.version + 1
    ∧ countActive (updateConfigStore s p now actor) = 1
    ∧ revertStore s v now2 actor2
      = s.map deactivate ++ [mkRevertedDoc s tgt now2 actor2]
    ∧ (mkRevertedDoc s tgt now2 actor2).version = maxVersion s + 1
    ∧ countActive (revertStore s v now2 actor2) = 1
    ∧ v < (mkRevertedDoc s tgt now2 actor2).version
    ∧ (∀ d ∈ s, d.version < (mkRevertedDoc s tgt now2 actor2).version)
    := by
  have hact : (mkUpdatedDoc cur p now actor).isActive = true := by
    rw [mkUpdatedDoc]
    exact activeDoc_isActive s cur hcur
  have hupd : updateConfigStore s p now actor
      = s.map deactivate ++ [mkUpdatedDoc cur p now actor] := by
    rw [updateConfigStore, hcur]
  have hne : 0 < s.length :=
    List.length_pos.mpr
      (List.ne_nil_of_mem (List.mem_of_find?_eq_some htgt))
  have hver : (mkRevertedDoc s tgt now2 actor2).version
      = maxVersion s + 1 := by
    rw [mkRevertedDoc]
    exact if_pos hne
  have hrev : revertStore s v now2 actor2
      = s.map deactivate ++ [mkRevertedDoc s tgt now2 actor2] := by
    rw [revertStore, htgt]
  have htv : tgt.version = v := by
    have := List.find?_some htgt
    simpa using this
  refine ⟨hupd, hact, rfl, ?_, hrev, hver, ?_, ?_, ?_⟩
  · rw [hupd]
    exact countActive_deactivated_append s _ hact
  · rw [hrev]
    exact countActive_deactivated_append s _ rfl
  · rw [hver, ← htv]
    exact Nat.lt_succ_of_le
      (version_le_maxVersion s tgt (List.mem_of_find?_eq_some htgt))
  · intro d hd
    rw [hver]
    exact Nat.lt_succ_of_le (version_le_maxVersion s d hd)

/-- A historical, deactivated version 1. -/
def cfgDocA : ConfigDoc :=
  { version := 1, isActive := false, lastUpdated := 0, updatedBy := none,
    cfg := defaultConfig }

/-- The active version 2. -/
def cfgDocB : ConfigDoc :=
  { version := 2, isActive := true, lastUpdated := 5, updatedBy := some 11,
    cfg := defaultConfig }

/-- A two-version store with version 2 active. -/
def cfgStore0 : List ConfigDoc := [cfgDocA, cfgDocB]

/-- An update patch raising the base message points. -/
def patch0 : TaxCfgPatch := { baseMessagePoints := some 4 }

/-- Witness for C4 on the two-version store: updating appends version 3 and
flips only active flags, reverting to version 1 appends version
`maxVersion + 1 = 3` (not 1), and both operations leave exactly one active
version. -/
theorem config_versioning_witness :
    updateConfigStore cfgStore0 patch0 9 (some 11)
      = cfgStore0.map deactivate ++ [mkUpdatedDoc cfgDocB patch0 9 (some 11)]
    ∧ (mkUpdatedDoc cfgDocB patch0 9 (some 11)).isActive = true
    ∧ (mkUpdatedDoc cfgDocB patch0 9 (some 11)).version = cfgDocB.version + 1
    ∧ countActive (updateConfigStore cfgStore0 patch0 9 (some 11)) = 1
    ∧ revertStore cfgStore0 1 10 (some 11)
      = cfgStore0.map deactivate
          ++ [mkRevertedDoc cfgStore0 cfgDocA 10 (some 11)]
    ∧ (mkRevertedDoc cfgStore0 cfgDocA 10 (some 11)).version
      = maxVersion cfgStore0 + 1
    ∧ countActive (revertStore cfgStore0 1 10 (some 11)) = 1
    ∧ 1 < (mkRevertedDoc cfgStore0 cfgDocA 10 (some 11)).version
    ∧ cfgDocA.version < (mkRevertedDoc cfgStore0 cfgDocA 10 (some 11)).version
    := by
  have h := config_versioning cfgStore0 patch0 9 (some 11) 1 10 (some 11)
    cfgDocB cfgDocA rfl rfl
  exact ⟨h.1, h.2.1, h.2.2.1, h.2.2.2.1, h.2.2.2.2.1, h.2.2.2.2.2.1,
    h.2.2.2.2.2.2.1, h.2.2.2.2.2.2.2.1,
    h.2.2.2.2.2.2.2.2 cfgDocA (List.mem_cons_self _ _)⟩
